import Mathlib

/-!
Verification of the TreeFrog event-reactor core (`tepoll.cpp`,
`twebsocketworker.cpp`) against its specification.

The C++ sources are shallowly embedded: the mutable `TEpoll` singleton becomes
an explicit state record threaded through the operations; heap-allocated
`TEpollSocket` objects become values stored in the registry; the OS epoll
instance becomes an association list from descriptor to interest mask;
`tSystemError`/`tError` logging becomes a counter; `deleteLater` becomes a
retired-object list.  Parts of the repository that are referenced but whose
sources are not available (`TEpollWebSocket` statics, `TSessionManager`,
`TWebSocketEndpoint` control helpers) are modelled from the specification and
marked as such in their doc comments.
-/

set_option autoImplicit false

namespace Treefrog

/-- epoll event bits, from `<sys/epoll.h>`. -/
def EPOLLIN : Nat := 1

/-- epoll event bit for write readiness. -/
def EPOLLOUT : Nat := 4

/-- epoll edge-trigger bit. -/
def EPOLLET : Nat := 2147483648

/-- Association-list lookup: first entry whose key matches. Models
`QMap::operator[]` reads, `QMap::contains`, and epoll descriptor lookups. -/
def alookup {α β : Type} [DecidableEq α] : List (α × β) → α → Option β
  | [], _ => none
  | p :: t, a => if p.1 = a then some p.2 else alookup t a

/-- Remove the first entry with the given key. Models `QMap::remove` and
`epoll_ctl(EPOLL_CTL_DEL)` on the modelled descriptor table. -/
def aerase {α β : Type} [DecidableEq α] : List (α × β) → α → List (α × β)
  | [], _ => []
  | p :: t, a => if p.1 = a then t else p :: aerase t a

/-- Replace the value of the first entry with the given key. -/
def aupdate {α β : Type} [DecidableEq α] : List (α × β) → α → β → List (α × β)
  | [], _, _ => []
  | p :: t, a, b => if p.1 = a then (a, b) :: t else p :: aupdate t a b

/-- Insert-or-replace, the semantics of `QMap::insert`. -/
def ainsert {α β : Type} [DecidableEq α] (l : List (α × β)) (a : α) (b : β) :
    List (α × β) :=
  if (alookup l a).isSome then aupdate l a b else l ++ [(a, b)]

/-- Protocol mode of a connection: `TEpollSocket` subclasses handling HTTP,
versus `TEpollWebSocket`. -/
inductive Mode
  | http
  | webSocket
deriving DecidableEq, Repr

/-- The parts of `THttpRequestHeader` the reactor core reads:
`rawHeader("Sec-WebSocket-Key")` and `cookie(TSession::sessionName())`. -/
structure THttpRequestHeader where
  secWebSocketKey : String
  sessionCookie : String
deriving DecidableEq, Repr

/-- The part of `TSession` the worker reads: its identifier (`id()`). -/
structure TSession where
  id : String
deriving DecidableEq, Repr

/-- A `TSendBuffer`.  The byte-level content produced by
`TEpollSocket::createSendBuffer` and by the frame encoders is abstracted into
a tagged value; only identity and multiplicity of buffers matter here. -/
inductive TSendBuffer
  | raw (data : String)
  | handshake (header : THttpRequestHeader)
  | textFrame (text : String)
  | binaryFrame (data : String)
  | pingFrame
  | pongFrame
deriving DecidableEq, Repr

/-- A `TEpollSocket` heap object: descriptor, UUID, peer address, protocol
mode and the outgoing buffer queue filled by `enqueueSendData`. -/
structure TEpollSocket where
  uuid : Nat
  sd : Int
  clientAddr : String
  mode : Mode
  sendbuf : List TSendBuffer
deriving DecidableEq, Repr

/-- `TSendData::Method` from `tepoll.cpp`. -/
inductive Method
  | disconnect
  | send
  | switchToWebSocket
deriving DecidableEq, Repr

/-- `TSendData` from `tepoll.cpp`: method tag, target UUID, optional buffer
(for Send), request header (for SwitchToWebSocket). -/
structure TSendData where
  method : Method
  uuid : Nat
  buffer : Option TSendBuffer
  header : THttpRequestHeader
deriving DecidableEq, Repr

namespace TWebSocketFrame

/-- `TWebSocketFrame::OpCode` numeric values (RFC 6455 §5.2). -/
def Continuation : Nat := 0

/-- Text frame opcode. -/
def TextFrame : Nat := 1

/-- Binary frame opcode. -/
def BinaryFrame : Nat := 2

/-- Close control opcode. -/
def Close : Nat := 8

/-- Ping control opcode. -/
def Ping : Nat := 9

/-- Pong control opcode. -/
def Pong : Nat := 10

end TWebSocketFrame

/-- A `TWebSocketWorker`: the fields set by its two constructors in
`twebsocketworker.cpp`. -/
structure TWebSocketWorker where
  socketUuid : Nat
  sessionStore : TSession
  requestPath : String
  opcode : Nat
  requestData : String
deriving DecidableEq, Repr

/-- Ghost trace entry: one applied queued action, recorded by the embedding of
`TEpoll::dispatchSendData` when (and only when) an action's switch branch
actually executes. -/
inductive AppliedEvent
  | sent (uuid : Nat) (buffer : Option TSendBuffer)
  | closed (uuid : Nat)
  | upgraded (uuid : Nat)
deriving DecidableEq, Repr

/-- The UUID an applied event concerns. -/
def AppliedEvent.uuid : AppliedEvent → Nat
  | sent u _ => u
  | closed u => u
  | upgraded u => u

/-- The `TEpoll` singleton state.  `epollSet` is the OS epoll registration
table (descriptor to interest mask); `pollingSockets` maps UUID to a socket
pointer, `none` standing for a stored null pointer; `errorLog` counts
`tSystemError` calls; `closedFds` records descriptors closed via
`TEpollSocket::close`; `retired` records objects passed to `deleteLater`;
`spawned` records frame workers started; `nextUuid` is the fresh-identifier
supply for newly constructed sockets; `events`/`numEvents`/`eventIterator`
are the epoll_wait result array (interest masks only), its length as reported
by the OS, and the iteration cursor; `appliedLog` is the ghost action trace. -/
structure TEpoll where
  epollSet : List (Int × Nat)
  pollingSockets : List (Nat × Option TEpollSocket)
  errorLog : Nat
  closedFds : List Int
  retired : List TEpollSocket
  spawned : List TWebSocketWorker
  nextUuid : Nat
  events : List Nat
  numEvents : Int
  eventIterator : Int
  appliedLog : List AppliedEvent
deriving DecidableEq, Repr

/-- `TEpoll::wait`: resets the event iterator, stores the epoll_wait outcome
(result count and event array, supplied here as oracle inputs), and logs an
error when the result is negative. -/
def TEpoll.wait (s : TEpoll) (result : Int) (evs : List Nat) : TEpoll :=
  { s with eventIterator := 0, numEvents := result, events := evs,
           errorLog := if result < 0 then s.errorLog + 1 else s.errorLog }

/-- `TEpoll::next`: advances the iterator while events remain (the returned
socket pointer, `events[i].data.ptr`, is not modelled; only the cursor). -/
def TEpoll.next (s : TEpoll) : TEpoll :=
  if s.eventIterator < s.numEvents then
    { s with eventIterator := s.eventIterator + 1 }
  else s

/-- `TEpoll::canReceive`: guard `eventIterator <= 0`, otherwise test the
`EPOLLIN` bit of `events[eventIterator - 1]`. -/
def TEpoll.canReceive (s : TEpoll) : Bool :=
  if s.eventIterator ≤ 0 then false
  else ((s.events.getD (s.eventIterator - 1).toNat 0) &&& EPOLLIN) != 0

/-- `TEpoll::canSend`: guard `eventIterator <= 0`, otherwise test the
`EPOLLOUT` bit of `events[eventIterator - 1]`. -/
def TEpoll.canSend (s : TEpoll) : Bool :=
  if s.eventIterator ≤ 0 then false
  else ((s.events.getD (s.eventIterator - 1).toNat 0) &&& EPOLLOUT) != 0

/-- `TEpoll::addPoll`: rejects a zero interest mask; `epoll_ctl(ADD)` fails
with `EEXIST` when the descriptor is already registered, in which case
nothing is logged (the `err != EEXIST` exemption) and the registry is not
touched; on success the descriptor is added and the socket inserted into
`pollingSockets`.  Returns `!ret`.  (Other `epoll_ctl` failures, e.g.
`EBADF`, are outside the modelled OS state.) -/
def TEpoll.addPoll (s : TEpoll) (socket : TEpollSocket) (events : Nat) :
    TEpoll × Bool :=
  if events = 0 then (s, false)
  else if (alookup s.epollSet socket.sd).isSome then
    (s, false)
  else
    ({ s with epollSet := s.epollSet ++ [(socket.sd, events)],
              pollingSockets := ainsert s.pollingSockets socket.uuid (some socket) },
     true)

/-- `TEpoll::modifyPoll`: rejects a zero mask; `epoll_ctl(MOD)` fails with
`ENOENT` when the descriptor is not registered, which *is* logged as an
error (no errno exemption in this function); on success the interest mask is
replaced. -/
def TEpoll.modifyPoll (s : TEpoll) (socket : TEpollSocket) (events : Nat) :
    TEpoll × Bool :=
  if events = 0 then (s, false)
  else if (alookup s.epollSet socket.sd).isSome then
    ({ s with epollSet := aupdate s.epollSet socket.sd events }, true)
  else
    ({ s with errorLog := s.errorLog + 1 }, false)

/-- `TEpoll::deletePoll`: first removes the UUID from `pollingSockets`
(`QMap::remove`); if nothing was removed it returns `false` immediately,
leaving the OS table untouched.  Otherwise `epoll_ctl(DEL)` removes the
descriptor; an `ENOENT` outcome is not logged (the `err != ENOENT`
exemption) but still makes the function return `false`. -/
def TEpoll.deletePoll (s : TEpoll) (socket : TEpollSocket) : TEpoll × Bool :=
  if (alookup s.pollingSockets socket.uuid).isNone then
    (s, false)
  else
    let s1 := { s with pollingSockets := aerase s.pollingSockets socket.uuid }
    if (alookup s1.epollSet socket.sd).isSome then
      ({ s1 with epollSet := aerase s1.epollSet socket.sd }, true)
    else
      (s1, false)

/-- Modelled from the spec: `TSessionManager::findSession`
(`tsessionmanager.cpp` is not among the sources).  Spec §6:
"`resolve(sessionId) -> session`, used only during the upgrade handshake";
the resolved session is the one identified by the given identifier. -/
def findSession (sessionId : String) : TSession := ⟨sessionId⟩

/-- A default-constructed `THttpRequestHeader` (`header()` in the `TSendData`
constructor taking a buffer). -/
def defaultHeader : THttpRequestHeader := ⟨"", ""⟩

/-- `TEpoll::setSendData(uuid, data)`: the Send action it enqueues. -/
def setSendDataAction (uuid : Nat) (data : String) : TSendData :=
  { method := .send, uuid := uuid, buffer := some (.raw data),
    header := defaultHeader }

/-- `TEpoll::setDisconnect(uuid)`: the Disconnect action it enqueues. -/
def setDisconnectAction (uuid : Nat) : TSendData :=
  { method := .disconnect, uuid := uuid, buffer := none,
    header := defaultHeader }

/-- `TEpoll::setSwitchToWebSocket(uuid, header)`: the upgrade action it
enqueues. -/
def setSwitchToWebSocketAction (uuid : Nat) (header : THttpRequestHeader) :
    TSendData :=
  { method := .switchToWebSocket, uuid := uuid, buffer := none,
    header := header }

/-- `TEpoll::dispatchSendData`, body of the per-action loop.  The action's
UUID is looked up through `pollingSockets[sd->uuid]`; `QMap::operator[]` on a
missing key default-inserts a null pointer, which the embedding records as a
`none` entry.  A null pointer or a non-positive descriptor skips the switch.
Send appends the buffer and rearms with `EPOLLIN|EPOLLOUT|EPOLLET`;
Disconnect unregisters, closes the descriptor and retires the object;
SwitchToWebSocket builds a `TEpollWebSocket` taking over the descriptor,
unregisters and retires the old socket with its descriptor zeroed (not
closed), enqueues the handshake response (`TEpollWebSocket::handshakeResponse`
is not among the sources; its RFC 6455 response is abstracted as a
`handshake` buffer), re-adds the new socket, resolves the session from the
request cookie and starts an opening frame worker
(`startWorkerForOpening`, modelled from the spec as delivering an opening
lifecycle event carrying the session).  The ghost `appliedLog` records each
executed branch. -/
def TEpoll.applySendData (s : TEpoll) (sd : TSendData) : TEpoll :=
  match alookup s.pollingSockets sd.uuid with
  | none =>
      { s with pollingSockets := s.pollingSockets ++ [(sd.uuid, none)] }
  | some none => s
  | some (some sock) =>
      if sock.sd > 0 then
        match sd.method with
        | .send =>
            let sock1 := { sock with sendbuf := sock.sendbuf ++ sd.buffer.toList }
            let s1 := { s with
                pollingSockets := aupdate s.pollingSockets sd.uuid (some sock1),
                appliedLog := s.appliedLog ++ [AppliedEvent.sent sd.uuid sd.buffer] }
            (s1.modifyPoll sock1 (EPOLLIN ||| EPOLLOUT ||| EPOLLET)).1
        | .disconnect =>
            let s1 := (s.deletePoll sock).1
            { s1 with closedFds := s1.closedFds ++ [sock.sd],
                      retired := s1.retired ++ [sock],
                      appliedLog := s1.appliedLog ++ [AppliedEvent.closed sd.uuid] }
        | .switchToWebSocket =>
            let ws : TEpollSocket :=
              { uuid := s.nextUuid, sd := sock.sd, clientAddr := sock.clientAddr,
                mode := .webSocket, sendbuf := [] }
            let s1 := (s.deletePoll sock).1
            let s2 := { s1 with retired := s1.retired ++ [{ sock with sd := 0 }],
                                nextUuid := s1.nextUuid + 1 }
            let ws1 := { ws with sendbuf := [TSendBuffer.handshake sd.header] }
            let s3 := (s2.addPoll ws1 (EPOLLIN ||| EPOLLOUT ||| EPOLLET)).1
            let sessionId := sd.header.sessionCookie
            let session := if sessionId = "" then (⟨""⟩ : TSession)
                           else findSession sessionId
            { s3 with
                spawned := s3.spawned ++
                  [{ socketUuid := ws.uuid, sessionStore := session,
                     requestPath := "", opcode := TWebSocketFrame.Continuation,
                     requestData := "" }],
                appliedLog := s3.appliedLog ++ [AppliedEvent.upgraded sd.uuid] }
      else s

/-- `TEpoll::dispatchSendData`: processes the dequeued action list in order
(`sendRequests.dequeue()` — the cross-thread `TQueue` is not among the
sources; the atomically drained, enqueue-ordered list is passed explicitly,
per spec §4.2 `drainAll`). -/
def TEpoll.dispatchSendData (s : TEpoll) (dataList : List TSendData) : TEpoll :=
  dataList.foldl TEpoll.applySendData s

/-- The ghost event an action would record if its switch branch executes
in state `s` (empty when the action is discarded). -/
def eventOf (s : TEpoll) (sd : TSendData) : List AppliedEvent :=
  match alookup s.pollingSockets sd.uuid with
  | some (some sock) =>
      if sock.sd > 0 then
        match sd.method with
        | .send => [AppliedEvent.sent sd.uuid sd.buffer]
        | .disconnect => [AppliedEvent.closed sd.uuid]
        | .switchToWebSocket => [AppliedEvent.upgraded sd.uuid]
      else []
  | _ => []

/-- Events emitted by dispatching a list of actions from state `s`,
in processing order. -/
def emittedEvents (s : TEpoll) : List TSendData → List AppliedEvent
  | [] => []
  | a :: rest => eventOf s a ++ emittedEvents (s.applySendData a) rest

/-- The event an action records when it is applied (a pure function of the
action). -/
def toEvent (a : TSendData) : AppliedEvent :=
  match a.method with
  | .send => .sent a.uuid a.buffer
  | .disconnect => .closed a.uuid
  | .switchToWebSocket => .upgraded a.uuid

/-- A callback entry of `endpoint->payloadList`: a `QVariant` as the frame
worker's drain loop discriminates it (`String`, `ByteArray`, `Int`, other). -/
inductive QVariant
  | str (s : String)
  | bytes (b : String)
  | int (n : Nat)
  | other
deriving DecidableEq, Repr

/-- Modelled from the spec: `TEpollWebSocket::sendText`
(`tepollwebsocket.cpp` is not among the sources) — frames the text and
enqueues a Send action for the UUID (spec §4.4: "translates each into a Send
or Disconnect action"). -/
def sendTextAction (uuid : Nat) (text : String) : TSendData :=
  { method := .send, uuid := uuid, buffer := some (.textFrame text),
    header := defaultHeader }

/-- Modelled from the spec: `TEpollWebSocket::sendBinary` — frames the bytes
and enqueues a Send action. -/
def sendBinaryAction (uuid : Nat) (data : String) : TSendData :=
  { method := .send, uuid := uuid, buffer := some (.binaryFrame data),
    header := defaultHeader }

/-- Modelled from the spec: `TEpollWebSocket::sendPing` — enqueues a Send of
a ping control frame. -/
def sendPingAction (uuid : Nat) : TSendData :=
  { method := .send, uuid := uuid, buffer := some .pingFrame,
    header := defaultHeader }

/-- Modelled from the spec: `TEpollWebSocket::sendPong` — enqueues a Send of
a pong control frame. -/
def sendPongAction (uuid : Nat) : TSendData :=
  { method := .send, uuid := uuid, buffer := some .pongFrame,
    header := defaultHeader }

/-- Modelled from the spec: `TEpollWebSocket::disconnect` — enqueues a
Disconnect action. -/
def disconnectAction (uuid : Nat) : TSendData :=
  { method := .disconnect, uuid := uuid, buffer := none,
    header := defaultHeader }

/-- One iteration of the worker's drain loop (`twebsocketworker.cpp`
lines 85–122): the actions enqueued for this entry and the number of
"Invalid logic" errors it logs. -/
def translateOne (uuid : Nat) (var : QVariant) : List TSendData × Nat :=
  match var with
  | .str s => ([sendTextAction uuid s], 0)
  | .bytes b => ([sendBinaryAction uuid b], 0)
  | .int n =>
      if n = TWebSocketFrame.Close then ([disconnectAction uuid], 0)
      else if n = TWebSocketFrame.Ping then ([sendPingAction uuid], 0)
      else if n = TWebSocketFrame.Pong then ([sendPongAction uuid], 0)
      else ([], 1)
  | .other => ([], 1)

/-- The worker's drain loop over the whole `payloadList`, in list order. -/
def translatePayload (uuid : Nat) : List QVariant → List TSendData × Nat
  | [] => ([], 0)
  | v :: rest =>
      let head := translateOne uuid v
      let tail := translatePayload uuid rest
      (head.1 ++ tail.1, head.2 + tail.2)

/-- An application endpoint (`TWebSocketEndpoint` subclass): for each
callback, the list of `payloadList` entries that invocation appends.  The
callbacks themselves are application code, external to the core. -/
structure TWebSocketEndpoint where
  onOpenOut : TSession → List QVariant
  onTextOut : String → List QVariant
  onBinaryOut : String → List QVariant
  onCloseOut : List QVariant
  onPingOut : List QVariant
  onPongOut : List QVariant

/-- A callback invocation performed by the frame worker. -/
inductive CallbackCall
  | onOpen (session : TSession)
  | onTextReceived (text : String)
  | onBinaryReceived (data : String)
  | onClose
  | onPing
  | onPong
deriving DecidableEq, Repr

/-- Outcome of one `TWebSocketWorker::run`: callbacks invoked, actions
enqueued on the send queue, `tError` count, `tWarn` count. -/
structure RunResult where
  calls : List CallbackCall
  actions : List TSendData
  errors : Nat
  warns : Nat
deriving DecidableEq, Repr

/-- Intermediate result of the opcode switch in `run`: callbacks invoked,
resulting `payloadList`, error and warning counts. -/
structure StepResult where
  calls : List CallbackCall
  payload : List QVariant
  errCount : Nat
  warnCount : Nat

/-- The opcode switch of `TWebSocketWorker::run` (lines 48–82).
`Continuation` (an opening lifecycle event) invokes `onOpen` only when the
stored session's id is empty, otherwise it logs "Invalid logic" and invokes
nothing.  `Close` runs `onClose` then `closeWebSocket()`; `Ping` runs
`onPing` then `sendPong()` — both helpers are `TWebSocketEndpoint` methods
not among the sources, modelled from the spec (§4.4: the output list may be
populated with "control directives (send-ping, send-pong, close)") as
appending the corresponding integer directive to `payloadList`.  An opcode
outside the table logs a warning and invokes nothing. -/
def runStep (endp : TWebSocketEndpoint) (w : TWebSocketWorker) : StepResult :=
  if w.opcode = TWebSocketFrame.Continuation then
    if w.sessionStore.id = "" then
      ⟨[.onOpen w.sessionStore], endp.onOpenOut w.sessionStore, 0, 0⟩
    else ⟨[], [], 1, 0⟩
  else if w.opcode = TWebSocketFrame.TextFrame then
    ⟨[.onTextReceived w.requestData], endp.onTextOut w.requestData, 0, 0⟩
  else if w.opcode = TWebSocketFrame.BinaryFrame then
    ⟨[.onBinaryReceived w.requestData], endp.onBinaryOut w.requestData, 0, 0⟩
  else if w.opcode = TWebSocketFrame.Close then
    ⟨[.onClose], endp.onCloseOut ++ [QVariant.int TWebSocketFrame.Close], 0, 0⟩
  else if w.opcode = TWebSocketFrame.Ping then
    ⟨[.onPing], endp.onPingOut ++ [QVariant.int TWebSocketFrame.Pong], 0, 0⟩
  else if w.opcode = TWebSocketFrame.Pong then
    ⟨[.onPong], endp.onPongOut, 0, 0⟩
  else ⟨[], [], 0, 1⟩

/-- `TWebSocketWorker::run`: resolve the endpoint (`TDispatcher` resolution
by path is external; `none` models "no endpoint"), perform the opcode
switch, then drain `payloadList` in order. -/
def TWebSocketWorker.run (w : TWebSocketWorker)
    (endpointOf : Option TWebSocketEndpoint) : RunResult :=
  match endpointOf with
  | none => ⟨[], [], 0, 0⟩
  | some endp =>
      let st := runStep endp w
      let t := translatePayload w.socketUuid st.payload
      ⟨st.calls, t.1, st.errCount + t.2, st.warnCount⟩

/-! ## Helper lemmas about the association-list operations -/

theorem alookup_cons {α β : Type} [DecidableEq α] (p : α × β)
    (t : List (α × β)) (a : α) :
    alookup (p :: t) a = if p.1 = a then some p.2 else alookup t a := rfl

theorem alookup_append_left {α β : Type} [DecidableEq α] {l r : List (α × β)}
    {a : α} {b : β} (h : alookup l a = some b) :
    alookup (l ++ r) a = some b := by
  induction l with
  | nil => simp [alookup] at h
  | cons p t ih =>
      rw [alookup_cons] at h
      rw [List.cons_append, alookup_cons]
      by_cases hc : p.1 = a
      · simp only [hc, if_pos] at h ⊢
        exact h
      · simp only [hc, if_neg, if_false] at h ⊢
        exact ih h

theorem alookup_append_right {α β : Type} [DecidableEq α] {l : List (α × β)}
    (r : List (α × β)) {a : α} (h : alookup l a = none) :
    alookup (l ++ r) a = alookup r a := by
  induction l with
  | nil => simp
  | cons p t ih =>
      rw [alookup_cons] at h
      rw [List.cons_append, alookup_cons]
      by_cases hc : p.1 = a
      · simp [hc] at h
      · simp only [hc, if_neg, if_false] at h ⊢
        exact ih h

theorem aerase_of_lookup_none {α β : Type} [DecidableEq α] {l : List (α × β)}
    {a : α} (h : alookup l a = none) : aerase l a = l := by
  induction l with
  | nil => rfl
  | cons p t ih =>
      rw [alookup_cons] at h
      unfold aerase
      by_cases hc : p.1 = a
      · simp [hc] at h
      · simp only [hc, if_neg, if_false] at h ⊢
        rw [ih h]

theorem ainsert_of_lookup_none {α β : Type} [DecidableEq α] {l : List (α × β)}
    {a : α} (b : β) (h : alookup l a = none) : ainsert l a b = l ++ [(a, b)] := by
  unfold ainsert
  rw [h]
  rfl

/-! ## C10 -/

/-- C10: whenever `next()` has not advanced the iterator past zero since the
last `wait()` (event iterator at or below zero), `canReceive()` and
`canSend()` return `false` for every possible event array — in particular
their value does not depend on the array's contents, so the guarded read of
`events[eventIterator - 1]` never happens at the public interface; and
immediately after `wait`, both return `false`. -/
theorem C10_canReceive_canSend_guard (s : TEpoll) (evs : List Nat) (res : Int) :
    (s.eventIterator ≤ 0 →
      TEpoll.canReceive { s with events := evs } = false ∧
      TEpoll.canSend { s with events := evs } = false) ∧
    TEpoll.canReceive (s.wait res evs) = false ∧
    TEpoll.canSend (s.wait res evs) = false := by
  refine ⟨fun h => ⟨?_, ?_⟩, ?_, ?_⟩ <;>
    simp +decide [TEpoll.canReceive, TEpoll.canSend, TEpoll.wait, *]

/-- An all-empty reactor state used as a concrete instance. -/
def c10State : TEpoll :=
  { epollSet := [], pollingSockets := [], errorLog := 0, closedFds := [],
    retired := [], spawned := [], nextUuid := 0, events := [], numEvents := 0,
    eventIterator := 0, appliedLog := [] }

/-- C10 witness: the guarded reads return `false` at a concrete state with
`eventIterator = 0` and a nonempty event array. -/
theorem C10_canReceive_canSend_guard_witness :
    TEpoll.canReceive { c10State with events := [5] } = false ∧
    TEpoll.canSend { c10State with events := [5] } = false :=
  (C10_canReceive_canSend_guard c10State [5] 1).1 (by decide)

/-! ## C4 -/

/-- Reactor state whose OS epoll table already holds descriptor 5. -/
def c4State : TEpoll :=
  { epollSet := [(5, 1)], pollingSockets := [], errorLog := 0, closedFds := [],
    retired := [], spawned := [], nextUuid := 0, events := [], numEvents := 0,
    eventIterator := 0, appliedLog := [] }

/-- An HTTP socket with descriptor 5. -/
def c4Sock : TEpollSocket :=
  { uuid := 1, sd := 5, clientAddr := "", mode := .http, sendbuf := [] }

/-- C4 counterexample: with descriptor 5 already registered in the OS
readiness mechanism, `addPoll` returns `false` — the already-registered
outcome is reported as failure, not treated as success as the claim states
(the registry is also left without the connection). -/
theorem C4_counterexample :
    (alookup c4State.epollSet c4Sock.sd).isSome = true ∧
    (c4State.addPoll c4Sock (EPOLLIN ||| EPOLLOUT ||| EPOLLET)).2 = false ∧
    (c4State.addPoll c4Sock (EPOLLIN ||| EPOLLOUT ||| EPOLLET)).1.pollingSockets
      = [] :=
  ⟨rfl, rfl, rfl⟩

/-- C4 (amended): when the connection's descriptor is already registered in
the OS readiness mechanism, `addPoll` does not log the failure and leaves the
reactor state (including the error log and the registry) unchanged, but it
reports failure: it returns `false` and does not insert the connection into
the registry. -/
theorem C4_addPoll_already_registered (s : TEpoll) (sock : TEpollSocket)
    (events : Nat) (h : (alookup s.epollSet sock.sd).isSome = true) :
    s.addPoll sock events = (s, false) := by
  unfold TEpoll.addPoll
  split
  · rfl
  · simp [h]

/-- C4 witness: the amended statement at the concrete already-registered
state. -/
theorem C4_addPoll_already_registered_witness :
    c4State.addPoll c4Sock 5 = (c4State, false) :=
  C4_addPoll_already_registered c4State c4Sock 5 rfl

/-! ## C5 -/

/-- Reactor state with descriptor 7 registered in the OS table but no
registry entry for UUID 2. -/
def c5State : TEpoll :=
  { epollSet := [(7, 1)], pollingSockets := [], errorLog := 0, closedFds := [],
    retired := [], spawned := [], nextUuid := 0, events := [], numEvents := 0,
    eventIterator := 0, appliedLog := [] }

/-- A socket with UUID 2 and descriptor 7. -/
def c5Sock : TEpollSocket :=
  { uuid := 2, sd := 7, clientAddr := "", mode := .http, sendbuf := [] }

/-- Reactor state where UUID 2 is registered and descriptor 7 polled. -/
def c5StateB : TEpoll :=
  { epollSet := [(7, 1)], pollingSockets := [(2, some c5Sock)], errorLog := 0,
    closedFds := [], retired := [], spawned := [], nextUuid := 0, events := [],
    numEvents := 0, eventIterator := 0, appliedLog := [] }

/-- C5 counterexample: descriptor 7 is registered in the OS readiness
mechanism but UUID 2 is absent from the registry; `deletePoll` leaves the OS
table untouched (and returns `false`), refuting the claim that removal from
the readiness mechanism happens first (which would deregister descriptor 7
regardless of the registry). -/
theorem C5_counterexample :
    (alookup c5State.epollSet c5Sock.sd).isSome = true ∧
    c5State.deletePoll c5Sock = (c5State, false) :=
  ⟨rfl, rfl⟩

/-- C5 (amended): `deletePoll` removes the connection from the registry
*first*; when the UUID is not found there it returns `false` without touching
the OS readiness mechanism (the benign already-retired race — nothing is
logged); when it is found, the registry entry is removed and then the
descriptor is removed from the readiness mechanism, a not-found (`ENOENT`)
outcome there being exempt from error logging. -/
theorem C5_deletePoll_registry_first (s : TEpoll) (sock : TEpollSocket) :
    (alookup s.pollingSockets sock.uuid = none →
      s.deletePoll sock = (s, false)) ∧
    ((alookup s.pollingSockets sock.uuid).isSome = true →
      (s.deletePoll sock).1.pollingSockets = aerase s.pollingSockets sock.uuid ∧
      (s.deletePoll sock).1.epollSet = aerase s.epollSet sock.sd ∧
      (s.deletePoll sock).1.errorLog = s.errorLog) := by
  constructor
  · intro h
    simp [TEpoll.deletePoll, h]
  · intro h
    have hn : (alookup s.pollingSockets sock.uuid).isNone = false := by
      cases hx : alookup s.pollingSockets sock.uuid with
      | none => rw [hx] at h; simp at h
      | some v => simp
    cases hep : (alookup s.epollSet sock.sd).isSome with
    | true => simp [TEpoll.deletePoll, hn, hep]
    | false =>
        have heq : alookup s.epollSet sock.sd = none := by
          cases hx : alookup s.epollSet sock.sd with
          | none => rfl
          | some v => rw [hx] at hep; simp at hep
        simp [TEpoll.deletePoll, hn, hep, aerase_of_lookup_none heq]

/-- C5 witness: both branches of the amended statement at concrete states —
the absent-UUID case leaves the state unchanged, the present-UUID case
removes the registry entry and then the OS registration. -/
theorem C5_deletePoll_registry_first_witness :
    c5State.deletePoll c5Sock = (c5State, false) ∧
    ((c5StateB.deletePoll c5Sock).1.pollingSockets
        = aerase c5StateB.pollingSockets c5Sock.uuid ∧
     (c5StateB.deletePoll c5Sock).1.epollSet = aerase c5StateB.epollSet c5Sock.sd ∧
     (c5StateB.deletePoll c5Sock).1.errorLog = c5StateB.errorLog) :=
  ⟨(C5_deletePoll_registry_first c5State c5Sock).1 rfl,
   (C5_deletePoll_registry_first c5StateB c5Sock).2 rfl⟩

/-! ## C2 -/

theorem applySendData_of_absent (s : TEpoll) (a : TSendData)
    (h : alookup s.pollingSockets a.uuid = none) :
    s.applySendData a
      = { s with pollingSockets := s.pollingSockets ++ [(a.uuid, none)] } := by
  unfold TEpoll.applySendData
  split
  · rfl
  · simp_all
  · simp_all

/-- C2: a Send action whose UUID is absent from the registry when the queue
is drained is applied as a no-op: the OS interest table, error log, applied
trace, closed-descriptor list and retired list are unchanged, and no
registered connection's outgoing buffer is touched.  (The only state change
is Qt's `QMap::operator[]` default-inserting a null entry for the missing
key, which every later lookup treats as absent.) -/
theorem C2_send_absent_uuid_noop (s : TEpoll) (u : Nat)
    (buf : Option TSendBuffer) (hdr : THttpRequestHeader)
    (h : alookup s.pollingSockets u = none) :
    (s.applySendData ⟨.send, u, buf, hdr⟩).epollSet = s.epollSet ∧
    (s.applySendData ⟨.send, u, buf, hdr⟩).errorLog = s.errorLog ∧
    (s.applySendData ⟨.send, u, buf, hdr⟩).appliedLog = s.appliedLog ∧
    (s.applySendData ⟨.send, u, buf, hdr⟩).closedFds = s.closedFds ∧
    (s.applySendData ⟨.send, u, buf, hdr⟩).retired = s.retired ∧
    ∀ v sock, alookup s.pollingSockets v = some (some sock) →
      alookup (s.applySendData ⟨.send, u, buf, hdr⟩).pollingSockets v
        = some (some sock) := by
  have hmain := applySendData_of_absent s ⟨.send, u, buf, hdr⟩ h
  refine ⟨?_, ?_, ?_, ?_, ?_, ?_⟩
  · rw [hmain]
  · rw [hmain]
  · rw [hmain]
  · rw [hmain]
  · rw [hmain]
  · intro v sock hv
    rw [hmain]
    exact alookup_append_left hv

/-- C2 witness: the no-op at a concrete empty-registry state. -/
theorem C2_send_absent_uuid_noop_witness :
    (c10State.applySendData ⟨.send, 3, some (.raw "x"), defaultHeader⟩).epollSet
        = c10State.epollSet ∧
    (c10State.applySendData ⟨.send, 3, some (.raw "x"), defaultHeader⟩).errorLog
        = c10State.errorLog ∧
    (c10State.applySendData ⟨.send, 3, some (.raw "x"), defaultHeader⟩).appliedLog
        = c10State.appliedLog ∧
    (c10State.applySendData ⟨.send, 3, some (.raw "x"), defaultHeader⟩).closedFds
        = c10State.closedFds ∧
    (c10State.applySendData ⟨.send, 3, some (.raw "x"), defaultHeader⟩).retired
        = c10State.retired ∧
    ∀ v sock, alookup c10State.pollingSockets v = some (some sock) →
      alookup (c10State.applySendData
          ⟨.send, 3, some (.raw "x"), defaultHeader⟩).pollingSockets v
        = some (some sock) :=
  C2_send_absent_uuid_noop c10State 3 (some (.raw "x")) defaultHeader rfl

/-! ## State-projection lemmas for the epoll operations -/

theorem modifyPoll_proj (s : TEpoll) (sock : TEpollSocket) (ev : Nat) :
    (s.modifyPoll sock ev).1.pollingSockets = s.pollingSockets ∧
    (s.modifyPoll sock ev).1.appliedLog = s.appliedLog ∧
    (s.modifyPoll sock ev).1.closedFds = s.closedFds ∧
    (s.modifyPoll sock ev).1.retired = s.retired ∧
    (s.modifyPoll sock ev).1.spawned = s.spawned ∧
    (s.modifyPoll sock ev).1.nextUuid = s.nextUuid := by
  unfold TEpoll.modifyPoll
  split
  · simp
  · split <;> simp

theorem deletePoll_proj (s : TEpoll) (sock : TEpollSocket) :
    (s.deletePoll sock).1.errorLog = s.errorLog ∧
    (s.deletePoll sock).1.appliedLog = s.appliedLog ∧
    (s.deletePoll sock).1.closedFds = s.closedFds ∧
    (s.deletePoll sock).1.retired = s.retired ∧
    (s.deletePoll sock).1.spawned = s.spawned ∧
    (s.deletePoll sock).1.nextUuid = s.nextUuid := by
  unfold TEpoll.deletePoll
  split
  · simp
  · dsimp only
    split <;> simp

theorem addPoll_proj (s : TEpoll) (sock : TEpollSocket) (ev : Nat) :
    (s.addPoll sock ev).1.errorLog = s.errorLog ∧
    (s.addPoll sock ev).1.appliedLog = s.appliedLog ∧
    (s.addPoll sock ev).1.closedFds = s.closedFds ∧
    (s.addPoll sock ev).1.retired = s.retired ∧
    (s.addPoll sock ev).1.spawned = s.spawned ∧
    (s.addPoll sock ev).1.nextUuid = s.nextUuid := by
  unfold TEpoll.addPoll
  split
  · simp
  · split <;> simp

/-! ## C1 -/

theorem toEvent_uuid (a : TSendData) : (toEvent a).uuid = a.uuid := by
  cases hm : a.method <;> simp [toEvent, hm, AppliedEvent.uuid]

theorem eventOf_cases (s : TEpoll) (a : TSendData) :
    eventOf s a = [] ∨ eventOf s a = [toEvent a] := by
  unfold eventOf toEvent
  cases alookup s.pollingSockets a.uuid with
  | none => exact Or.inl rfl
  | some o =>
      cases o with
      | none => exact Or.inl rfl
      | some sock =>
          dsimp only
          by_cases hsd : sock.sd > 0
          · rw [if_pos hsd]
            cases a.method <;> exact Or.inr rfl
          · rw [if_neg hsd]
            exact Or.inl rfl

theorem applySendData_appliedLog (s : TEpoll) (a : TSendData) :
    (s.applySendData a).appliedLog = s.appliedLog ++ eventOf s a := by
  unfold TEpoll.applySendData eventOf
  cases hx : alookup s.pollingSockets a.uuid with
  | none => simp
  | some o =>
      cases o with
      | none => simp
      | some sock =>
          dsimp only
          by_cases hsd : sock.sd > 0
          · rw [if_pos hsd, if_pos hsd]
            cases hm : a.method
            · simp [(deletePoll_proj s sock).2.1]
            · simp [(modifyPoll_proj _ _ _).2.1]
            · simp [(addPoll_proj _ _ _).2.1, (deletePoll_proj s sock).2.1]
          · rw [if_neg hsd, if_neg hsd]
            simp

theorem dispatchSendData_appliedLog (l : List TSendData) :
    ∀ s : TEpoll,
      (s.dispatchSendData l).appliedLog = s.appliedLog ++ emittedEvents s l := by
  induction l with
  | nil => intro s; simp [TEpoll.dispatchSendData, emittedEvents]
  | cons a t ih =>
      intro s
      have h1 : s.dispatchSendData (a :: t)
          = (s.applySendData a).dispatchSendData t := rfl
      rw [h1, ih (s.applySendData a), applySendData_appliedLog]
      simp [emittedEvents]

theorem emitted_filter_sublist (l : List TSendData) :
    ∀ (s : TEpoll) (u : Nat),
      List.Sublist ((emittedEvents s l).filter (fun e => e.uuid == u))
        ((l.filter (fun a => a.uuid == u)).map toEvent) := by
  induction l with
  | nil => intro s u; simp [emittedEvents]
  | cons a t ih =>
      intro s u
      have hev : emittedEvents s (a :: t)
          = eventOf s a ++ emittedEvents (s.applySendData a) t := rfl
      rw [hev, List.filter_append, List.filter_cons]
      by_cases hu : a.uuid == u
      · rw [if_pos hu, List.map_cons]
        rcases eventOf_cases s a with he | he <;> rw [he]
        · exact List.Sublist.cons _ (by simpa using ih (s.applySendData a) u)
        · have hq : (fun e => e.uuid == u) (toEvent a) = true := by
            simp only [toEvent_uuid]; exact hu
          rw [List.filter_cons, if_pos hq, List.filter_nil]
          exact List.Sublist.cons₂ _ (by simpa using ih (s.applySendData a) u)
      · rw [if_neg hu]
        rcases eventOf_cases s a with he | he <;> rw [he]
        · simpa using ih (s.applySendData a) u
        · have hq : (fun e => e.uuid == u) (toEvent a) = false := by
            simp only [toEvent_uuid]
            simpa using hu
          rw [List.filter_cons, if_neg (by simp [hq]), List.filter_nil]
          simpa using ih (s.applySendData a) u

/-- Concrete reactor state: UUID 1 registered with live descriptor 3. -/
def c1State : TEpoll :=
  { epollSet := [(3, 1)],
    pollingSockets := [(1, some ⟨1, 3, "peer", .http, []⟩)],
    errorLog := 0, closedFds := [], retired := [], spawned := [], nextUuid := 7,
    events := [], numEvents := 0, eventIterator := 0, appliedLog := [] }

/-- C1: `dispatchSendData` walks the drained queue sequentially, so the
applied-action trace extends by the emitted events of the list in processing
order, and for every UUID the applied events form a sublist of (hence appear
in the same order as) that UUID's enqueued actions; concretely, a
Send/Send/Disconnect sequence for one UUID yields bytes-then-bytes-then-close,
never reordered. -/
theorem C1_per_uuid_enqueue_order :
    (∀ (s : TEpoll) (l : List TSendData),
      (s.dispatchSendData l).appliedLog = s.appliedLog ++ emittedEvents s l) ∧
    (∀ (s : TEpoll) (l : List TSendData) (u : Nat),
      List.Sublist ((emittedEvents s l).filter (fun e => e.uuid == u))
        ((l.filter (fun a => a.uuid == u)).map toEvent)) ∧
    (c1State.dispatchSendData
        [setSendDataAction 1 "a", setSendDataAction 1 "b",
         setDisconnectAction 1]).appliedLog
      = [AppliedEvent.sent 1 (some (TSendBuffer.raw "a")),
         AppliedEvent.sent 1 (some (TSendBuffer.raw "b")),
         AppliedEvent.closed 1] :=
  ⟨fun s l => dispatchSendData_appliedLog l s,
   fun s l u => emitted_filter_sublist l s u,
   by decide⟩

/-! ## C3 -/

theorem deletePoll_fst_of_found (s : TEpoll) (sock : TEpollSocket)
    (h : (alookup s.pollingSockets sock.uuid).isSome = true) :
    (s.deletePoll sock).1
      = { s with pollingSockets := aerase s.pollingSockets sock.uuid,
                 epollSet := aerase s.epollSet sock.sd } := by
  have hn : (alookup s.pollingSockets sock.uuid).isNone = false := by
    cases hx : alookup s.pollingSockets sock.uuid with
    | none => rw [hx] at h; simp at h
    | some v => simp
  cases hep : (alookup s.epollSet sock.sd).isSome with
  | true => simp [TEpoll.deletePoll, hn, hep]
  | false =>
      have heq : alookup s.epollSet sock.sd = none := by
        cases hx : alookup s.epollSet sock.sd with
        | none => rfl
        | some v => rw [hx] at hep; simp at hep
      simp [TEpoll.deletePoll, hn, hep, aerase_of_lookup_none heq]

theorem addPoll_of_absent (s : TEpoll) (sock : TEpollSocket) (ev : Nat)
    (hev : ev ≠ 0) (h : alookup s.epollSet sock.sd = none) :
    s.addPoll sock ev
      = ({ s with epollSet := s.epollSet ++ [(sock.sd, ev)],
                  pollingSockets :=
                    ainsert s.pollingSockets sock.uuid (some sock) },
         true) := by
  simp [TEpoll.addPoll, hev, h]

/-- Closed form of the SwitchToWebSocket branch of `dispatchSendData` under
a well-formed state (registered socket, unique keys, fresh next UUID). -/
theorem applySendData_switch (s : TEpoll) (u : Nat) (hdr : THttpRequestHeader)
    (sock : TEpollSocket)
    (hreg : alookup s.pollingSockets u = some (some sock))
    (huid : sock.uuid = u)
    (hsd : sock.sd > 0)
    (hfresh : alookup (aerase s.pollingSockets u) s.nextUuid = none)
    (hep : alookup (aerase s.epollSet sock.sd) sock.sd = none) :
    s.applySendData ⟨.switchToWebSocket, u, none, hdr⟩
      = { s with
          epollSet := aerase s.epollSet sock.sd
            ++ [(sock.sd, EPOLLIN ||| EPOLLOUT ||| EPOLLET)],
          pollingSockets := aerase s.pollingSockets u
            ++ [(s.nextUuid,
                 some { uuid := s.nextUuid, sd := sock.sd,
                        clientAddr := sock.clientAddr, mode := .webSocket,
                        sendbuf := [TSendBuffer.handshake hdr] })],
          retired := s.retired ++ [{ sock with sd := 0 }],
          nextUuid := s.nextUuid + 1,
          spawned := s.spawned ++
            [{ socketUuid := s.nextUuid,
               sessionStore := if hdr.sessionCookie = "" then (⟨""⟩ : TSession)
                               else findSession hdr.sessionCookie,
               requestPath := "", opcode := TWebSocketFrame.Continuation,
               requestData := "" }],
          appliedLog := s.appliedLog ++ [AppliedEvent.upgraded u] } := by
  have hfound : (alookup s.pollingSockets sock.uuid).isSome = true := by
    rw [huid, hreg]; rfl
  have hdel := deletePoll_fst_of_found s sock hfound
  rw [huid] at hdel
  unfold TEpoll.applySendData
  dsimp only
  rw [hreg]
  dsimp only
  rw [if_pos hsd]
  rw [hdel]
  dsimp only
  rw [addPoll_of_absent _ _ _ (by decide) (by dsimp only; exact hep)]
  dsimp only
  rw [ainsert_of_lookup_none _ hfresh]

/-- C3: applying `UpgradeToWebSocket` to a registered HTTP connection with
live descriptor D yields a state where a new WebSocket-mode connection with
descriptor D is registered under a fresh UUID, the old HTTP connection is
unregistered and retired with its descriptor zeroed but *not* closed (the
closed-descriptor list is unchanged), and the new connection's outgoing
buffer holds exactly one handshake response. -/
theorem C3_upgrade_preserves_descriptor (s : TEpoll) (u : Nat)
    (sock : TEpollSocket) (hdr : THttpRequestHeader)
    (hreg : alookup s.pollingSockets u = some (some sock))
    (huid : sock.uuid = u)
    (hsd : sock.sd > 0)
    (_hmode : sock.mode = .http)
    (hne : u ≠ s.nextUuid)
    (hold : alookup (aerase s.pollingSockets u) u = none)
    (hfresh : alookup (aerase s.pollingSockets u) s.nextUuid = none)
    (hep : alookup (aerase s.epollSet sock.sd) sock.sd = none) :
    alookup (s.applySendData (setSwitchToWebSocketAction u hdr)).pollingSockets
        s.nextUuid
      = some (some { uuid := s.nextUuid, sd := sock.sd,
                     clientAddr := sock.clientAddr, mode := .webSocket,
                     sendbuf := [TSendBuffer.handshake hdr] }) ∧
    alookup (s.applySendData (setSwitchToWebSocketAction u hdr)).pollingSockets u
      = none ∧
    (s.applySendData (setSwitchToWebSocketAction u hdr)).retired
      = s.retired ++ [{ sock with sd := 0 }] ∧
    (s.applySendData (setSwitchToWebSocketAction u hdr)).closedFds
      = s.closedFds ∧
    (s.applySendData (setSwitchToWebSocketAction u hdr)).appliedLog
      = s.appliedLog ++ [AppliedEvent.upgraded u] := by
  have happly := applySendData_switch s u hdr sock hreg huid hsd hfresh hep
  have hact : setSwitchToWebSocketAction u hdr
      = (⟨.switchToWebSocket, u, none, hdr⟩ : TSendData) := rfl
  rw [hact, happly]
  refine ⟨?_, ?_, rfl, rfl, rfl⟩
  · rw [alookup_append_right _ hfresh]
    simp [alookup]
  · rw [alookup_append_right _ hold]
    have : s.nextUuid ≠ u := fun hh => hne hh.symm
    simp [alookup, this]

/-- Concrete upgrade scenario: UUID 1, descriptor 3, fresh UUID 7. -/
def c3State : TEpoll :=
  { epollSet := [(3, 1)],
    pollingSockets := [(1, some ⟨1, 3, "peer", .http, []⟩)],
    errorLog := 0, closedFds := [], retired := [], spawned := [], nextUuid := 7,
    events := [], numEvents := 0, eventIterator := 0, appliedLog := [] }

/-- The registered HTTP socket of `c3State`. -/
def c3Sock : TEpollSocket := ⟨1, 3, "peer", .http, []⟩

/-- The upgrade request header of the C3 scenario. -/
def c3Hdr : THttpRequestHeader := ⟨"wskey", "sid42"⟩

/-- C3 witness: the upgrade conclusions at the concrete scenario. -/
theorem C3_upgrade_preserves_descriptor_witness :
    alookup (c3State.applySendData
        (setSwitchToWebSocketAction 1 c3Hdr)).pollingSockets c3State.nextUuid
      = some (some { uuid := c3State.nextUuid, sd := c3Sock.sd,
                     clientAddr := c3Sock.clientAddr, mode := .webSocket,
                     sendbuf := [TSendBuffer.handshake c3Hdr] }) ∧
    alookup (c3State.applySendData
        (setSwitchToWebSocketAction 1 c3Hdr)).pollingSockets 1 = none ∧
    (c3State.applySendData (setSwitchToWebSocketAction 1 c3Hdr)).retired
      = c3State.retired ++ [{ c3Sock with sd := 0 }] ∧
    (c3State.applySendData (setSwitchToWebSocketAction 1 c3Hdr)).closedFds
      = c3State.closedFds ∧
    (c3State.applySendData (setSwitchToWebSocketAction 1 c3Hdr)).appliedLog
      = c3State.appliedLog ++ [AppliedEvent.upgraded 1] :=
  C3_upgrade_preserves_descriptor c3State 1 c3Sock c3Hdr rfl rfl (by decide)
    rfl (by decide) rfl rfl rfl

/-! ## Worker-side lemmas -/

theorem translatePayload_append (u : Nat) (l1 l2 : List QVariant) :
    translatePayload u (l1 ++ l2)
      = ((translatePayload u l1).1 ++ (translatePayload u l2).1,
         (translatePayload u l1).2 + (translatePayload u l2).2) := by
  induction l1 with
  | nil => simp [translatePayload]
  | cons v t ih => simp [translatePayload, ih, Nat.add_assoc]

theorem run_eq (w : TWebSocketWorker) (endp : TWebSocketEndpoint) :
    w.run (some endp)
      = ⟨(runStep endp w).calls,
         (translatePayload w.socketUuid (runStep endp w).payload).1,
         (runStep endp w).errCount
           + (translatePayload w.socketUuid (runStep endp w).payload).2,
         (runStep endp w).warnCount⟩ := rfl

/-! ## C6 -/

/-- An endpoint whose callbacks emit nothing. -/
def c6Endpoint : TWebSocketEndpoint :=
  ⟨fun _ => [], fun _ => [], fun _ => [], [], [], []⟩

/-- Reactor state for the C6 upgrade scenario (same shape as `c3State`). -/
def c6State : TEpoll :=
  { epollSet := [(3, 1)],
    pollingSockets := [(1, some ⟨1, 3, "peer", .http, []⟩)],
    errorLog := 0, closedFds := [], retired := [], spawned := [], nextUuid := 7,
    events := [], numEvents := 0, eventIterator := 0, appliedLog := [] }

/-- C6 counterexample: an upgrade whose request cookie carries session id
`"abc"` spawns exactly the opening worker holding the resolved session with
that (non-empty) id; running that worker invokes *no* callback (in
particular not `onOpen`) and logs one "Invalid logic" error, refuting the
claim that `onOpen` is invoked also when the resolved session id is
non-empty. -/
theorem C6_counterexample :
    (c6State.applySendData (setSwitchToWebSocketAction 1 ⟨"k", "abc"⟩)).spawned
      = [{ socketUuid := 7, sessionStore := ⟨"abc"⟩, requestPath := "",
           opcode := TWebSocketFrame.Continuation, requestData := "" }] ∧
    (TWebSocketWorker.run
        { socketUuid := 7, sessionStore := ⟨"abc"⟩, requestPath := "",
          opcode := TWebSocketFrame.Continuation, requestData := "" }
        (some c6Endpoint)).calls = [] ∧
    (TWebSocketWorker.run
        { socketUuid := 7, sessionStore := ⟨"abc"⟩, requestPath := "",
          opcode := TWebSocketFrame.Continuation, requestData := "" }
        (some c6Endpoint)).errors = 1 := by
  refine ⟨by decide, rfl, rfl⟩

/-- C6 (amended): on an opening lifecycle event (`Continuation`), the frame
worker invokes `onOpen` with the delivered session only when that session's
id is empty; when the id is non-empty it logs an error, invokes no callback
and enqueues nothing. -/
theorem C6_onOpen_requires_empty_session_id (endp : TWebSocketEndpoint)
    (w : TWebSocketWorker)
    (hop : w.opcode = TWebSocketFrame.Continuation) :
    (w.sessionStore.id = "" →
      (w.run (some endp)).calls = [CallbackCall.onOpen w.sessionStore]) ∧
    (w.sessionStore.id ≠ "" →
      (w.run (some endp)).calls = [] ∧
      (w.run (some endp)).errors = 1 ∧
      (w.run (some endp)).actions = []) := by
  constructor
  · intro h
    have hstep : runStep endp w
        = ⟨[.onOpen w.sessionStore], endp.onOpenOut w.sessionStore, 0, 0⟩ := by
      simp [runStep, hop, h]
    rw [run_eq, hstep]
  · intro h
    have hstep : runStep endp w = ⟨[], [], 1, 0⟩ := by
      simp [runStep, hop, h]
    rw [run_eq, hstep]
    exact ⟨rfl, rfl, rfl⟩

/-- C6 witness: both branches of the amended statement at concrete opening
workers, with empty and non-empty session ids. -/
theorem C6_onOpen_requires_empty_session_id_witness :
    (TWebSocketWorker.run
        { socketUuid := 7, sessionStore := ⟨""⟩, requestPath := "",
          opcode := TWebSocketFrame.Continuation, requestData := "" }
        (some c6Endpoint)).calls
      = [CallbackCall.onOpen ⟨""⟩] ∧
    ((TWebSocketWorker.run
        { socketUuid := 7, sessionStore := ⟨"xyz"⟩, requestPath := "",
          opcode := TWebSocketFrame.Continuation, requestData := "" }
        (some c6Endpoint)).calls = [] ∧
     (TWebSocketWorker.run
        { socketUuid := 7, sessionStore := ⟨"xyz"⟩, requestPath := "",
          opcode := TWebSocketFrame.Continuation, requestData := "" }
        (some c6Endpoint)).errors = 1 ∧
     (TWebSocketWorker.run
        { socketUuid := 7, sessionStore := ⟨"xyz"⟩, requestPath := "",
          opcode := TWebSocketFrame.Continuation, requestData := "" }
        (some c6Endpoint)).actions = []) :=
  ⟨(C6_onOpen_requires_empty_session_id c6Endpoint _ rfl).1 rfl,
   (C6_onOpen_requires_empty_session_id c6Endpoint _ rfl).2 (by decide)⟩

/-! ## C7 -/

/-- C7: a frame whose opcode is outside the closed table
{Continuation, Text, Binary, Close, Ping, Pong} makes the worker log a
warning and drop the frame: no callback is invoked, no error is logged, no
action is enqueued, and applying the worker's (empty) output to any reactor
state leaves it unchanged — the connection stays registered and open. -/
theorem C7_unknown_opcode_dropped (endp : TWebSocketEndpoint)
    (w : TWebSocketWorker)
    (h : w.opcode ∉ [TWebSocketFrame.Continuation, TWebSocketFrame.TextFrame,
                     TWebSocketFrame.BinaryFrame, TWebSocketFrame.Close,
                     TWebSocketFrame.Ping, TWebSocketFrame.Pong]) :
    (w.run (some endp)).calls = [] ∧
    (w.run (some endp)).actions = [] ∧
    (w.run (some endp)).warns = 1 ∧
    (w.run (some endp)).errors = 0 ∧
    ∀ s : TEpoll, s.dispatchSendData (w.run (some endp)).actions = s := by
  simp only [List.mem_cons, List.not_mem_nil, not_or, or_false] at h
  obtain ⟨h0, h1, h2, h3, h4, h5⟩ := h
  have hstep : runStep endp w = ⟨[], [], 0, 1⟩ := by
    simp [runStep, h0, h1, h2, h3, h4, h5]
  rw [run_eq, hstep]
  exact ⟨rfl, rfl, rfl, rfl, fun s => rfl⟩

/-- C7 witness: a frame with reserved opcode 3 is dropped. -/
theorem C7_unknown_opcode_dropped_witness :
    (TWebSocketWorker.run
        { socketUuid := 4, sessionStore := ⟨""⟩, requestPath := "",
          opcode := 3, requestData := "zz" } (some c6Endpoint)).calls = [] ∧
    (TWebSocketWorker.run
        { socketUuid := 4, sessionStore := ⟨""⟩, requestPath := "",
          opcode := 3, requestData := "zz" } (some c6Endpoint)).actions = [] ∧
    (TWebSocketWorker.run
        { socketUuid := 4, sessionStore := ⟨""⟩, requestPath := "",
          opcode := 3, requestData := "zz" } (some c6Endpoint)).warns = 1 ∧
    (TWebSocketWorker.run
        { socketUuid := 4, sessionStore := ⟨""⟩, requestPath := "",
          opcode := 3, requestData := "zz" } (some c6Endpoint)).errors = 0 ∧
    ∀ s : TEpoll,
      s.dispatchSendData
        (TWebSocketWorker.run
          { socketUuid := 4, sessionStore := ⟨""⟩, requestPath := "",
            opcode := 3, requestData := "zz" } (some c6Endpoint)).actions = s :=
  C7_unknown_opcode_dropped c6Endpoint _ (by decide)

/-! ## C8 -/

/-- C8: the drain loop translates each output-list entry into exactly one
queued action — a text payload into a Send of a text frame, a binary payload
into a Send of a binary frame, a close directive into a Disconnect, and
ping/pong directives into Sends of the corresponding control frames — and
translating a concatenation concatenates the translations, so actions are
enqueued in list order. -/
theorem C8_payload_translated_in_order (u : Nat) :
    (∀ l1 l2 : List QVariant,
      (translatePayload u (l1 ++ l2)).1
        = (translatePayload u l1).1 ++ (translatePayload u l2).1) ∧
    (∀ t, (translatePayload u [QVariant.str t]).1 = [sendTextAction u t]) ∧
    (∀ b, (translatePayload u [QVariant.bytes b]).1 = [sendBinaryAction u b]) ∧
    (translatePayload u [QVariant.int TWebSocketFrame.Close]).1
      = [disconnectAction u] ∧
    (translatePayload u [QVariant.int TWebSocketFrame.Ping]).1
      = [sendPingAction u] ∧
    (translatePayload u [QVariant.int TWebSocketFrame.Pong]).1
      = [sendPongAction u] := by
  refine ⟨?_, fun t => rfl, fun b => rfl, rfl, rfl, rfl⟩
  intro l1 l2
  rw [translatePayload_append]

/-! ## C9 -/

/-- C9: after `onPing` the worker always appends the pong reply directive
(`sendPong()`), so a Ping frame's enqueued actions are the translation of
the callback's own output followed by a Send of a pong frame — even when the
callback emits nothing; likewise `onClose` is always followed by the close
directive (`closeWebSocket()`), ending the enqueued actions with a
Disconnect. -/
theorem C9_ping_close_always_answered (endp : TWebSocketEndpoint)
    (w : TWebSocketWorker) :
    (w.opcode = TWebSocketFrame.Ping →
      (w.run (some endp)).calls = [CallbackCall.onPing] ∧
      (w.run (some endp)).actions
        = (translatePayload w.socketUuid endp.onPingOut).1
          ++ [sendPongAction w.socketUuid] ∧
      (endp.onPingOut = [] →
        (w.run (some endp)).actions = [sendPongAction w.socketUuid])) ∧
    (w.opcode = TWebSocketFrame.Close →
      (w.run (some endp)).calls = [CallbackCall.onClose] ∧
      (w.run (some endp)).actions
        = (translatePayload w.socketUuid endp.onCloseOut).1
          ++ [disconnectAction w.socketUuid] ∧
      (endp.onCloseOut = [] →
        (w.run (some endp)).actions = [disconnectAction w.socketUuid])) := by
  constructor
  · intro hop
    have hstep : runStep endp w
        = ⟨[.onPing], endp.onPingOut ++ [QVariant.int TWebSocketFrame.Pong],
           0, 0⟩ := by
      simp [runStep, hop, TWebSocketFrame.Ping, TWebSocketFrame.Continuation,
            TWebSocketFrame.TextFrame, TWebSocketFrame.BinaryFrame,
            TWebSocketFrame.Close]
    rw [run_eq, hstep]
    refine ⟨rfl, ?_, ?_⟩
    · dsimp only
      rw [translatePayload_append]
      rfl
    · intro he
      dsimp only
      rw [he]
      rfl
  · intro hop
    have hstep : runStep endp w
        = ⟨[.onClose], endp.onCloseOut ++ [QVariant.int TWebSocketFrame.Close],
           0, 0⟩ := by
      simp [runStep, hop, TWebSocketFrame.Close, TWebSocketFrame.Continuation,
            TWebSocketFrame.TextFrame, TWebSocketFrame.BinaryFrame]
    rw [run_eq, hstep]
    refine ⟨rfl, ?_, ?_⟩
    · dsimp only
      rw [translatePayload_append]
      rfl
    · intro he
      dsimp only
      rw [he]
      rfl

/-- C9 witness: a Ping worker and a Close worker over an endpoint emitting
nothing produce exactly the pong Send and the Disconnect. -/
theorem C9_ping_close_always_answered_witness :
    ((TWebSocketWorker.run
        { socketUuid := 4, sessionStore := ⟨""⟩, requestPath := "",
          opcode := TWebSocketFrame.Ping, requestData := "" }
        (some c6Endpoint)).calls = [CallbackCall.onPing] ∧
     (TWebSocketWorker.run
        { socketUuid := 4, sessionStore := ⟨""⟩, requestPath := "",
          opcode := TWebSocketFrame.Ping, requestData := "" }
        (some c6Endpoint)).actions
       = (translatePayload 4 c6Endpoint.onPingOut).1 ++ [sendPongAction 4] ∧
     (c6Endpoint.onPingOut = [] →
       (TWebSocketWorker.run
          { socketUuid := 4, sessionStore := ⟨""⟩, requestPath := "",
            opcode := TWebSocketFrame.Ping, requestData := "" }
          (some c6Endpoint)).actions = [sendPongAction 4])) ∧
    ((TWebSocketWorker.run
        { socketUuid := 5, sessionStore := ⟨""⟩, requestPath := "",
          opcode := TWebSocketFrame.Close, requestData := "" }
        (some c6Endpoint)).calls = [CallbackCall.onClose] ∧
     (TWebSocketWorker.run
        { socketUuid := 5, sessionStore := ⟨""⟩, requestPath := "",
          opcode := TWebSocketFrame.Close, requestData := "" }
        (some c6Endpoint)).actions
       = (translatePayload 5 c6Endpoint.onCloseOut).1 ++ [disconnectAction 5] ∧
     (c6Endpoint.onCloseOut = [] →
       (TWebSocketWorker.run
          { socketUuid := 5, sessionStore := ⟨""⟩, requestPath := "",
            opcode := TWebSocketFrame.Close, requestData := "" }
          (some c6Endpoint)).actions = [disconnectAction 5])) :=
  ⟨(C9_ping_close_always_answered c6Endpoint _).1 rfl,
   (C9_ping_close_always_answered c6Endpoint _).2 rfl⟩

end Treefrog
